import Mathlib

/-!
Verification of the shader-program module of `src/src/inugami/shader.cpp`
(Inugami framework, namespace `Inugami`, `INU_NO_SHADERS` not defined).

The OpenGL driver is modelled as an oracle (`Driver`) recording the answers
the driver gives during one `Shader::Shader` construction: per-stage compile
status and info logs, the link status and program info log, and the active
uniform table.  The constructor is embedded as a function producing the list
of state-changing GL calls it issues (the trace) together with either the
constructed `Shader` value or the thrown exception.  The `thread_local`
`boundProgram` variable is embedded as a function from thread ids to the
currently bound program id of that thread.
-/

namespace Inugami

/-- GL enum values of the five stage kinds, in the order of the
`shaderTypes` array at `shader.cpp:136`:
`GL_VERTEX_SHADER, GL_TESS_CONTROL_SHADER, GL_TESS_EVALUATION_SHADER,
GL_GEOMETRY_SHADER, GL_FRAGMENT_SHADER`. -/
def shaderTypes : Fin 5 → Nat
  | 0 => 35633
  | 1 => 36488
  | 2 => 36487
  | 3 => 36313
  | 4 => 35632

/-- The stage sources handed to `Shader::Shader`.  The `ShaderProgram`
type itself lives in `shaderprogram.hpp` (not part of the hard core); from
its use at `shader.cpp:148` and spec section 3 it is an array of 5 source
strings indexed by stage kind, where `""` marks an absent stage. -/
structure ShaderProgram where
  sources : Fin 5 → String

/-- One entry of the uniform table: array size, type enum and location, as
filled in by `Shader::initUniforms` (`shader.cpp:213`-`215`). -/
structure UniformData where
  size : Int
  type : Nat
  location : Int
deriving DecidableEq, Repr

/-- Oracle for the GL driver's answers during one construction.  Compile
answers are per stage slot (each slot gets its own shader object). -/
structure Driver where
  /-- `GL_COMPILE_STATUS` the driver reports for the shader object of
  stage slot `i` (`shader.cpp:125`). -/
  compileStatus : Fin 5 → Bool
  /-- `GL_INFO_LOG_LENGTH` the driver reports for the shader object of
  stage slot `i` (`shader.cpp:129`). -/
  shaderInfoLogLen : Fin 5 → Nat
  /-- The C string read from the info-log buffer of stage `i` after
  `glGetShaderInfoLog` (`shader.cpp:131`-`132`). -/
  shaderInfoLog : Fin 5 → String
  /-- `GL_LINK_STATUS` reported for the program (`shader.cpp:160`). -/
  linkStatus : Bool
  /-- `GL_INFO_LOG_LENGTH` reported for the program (`shader.cpp:165`). -/
  programInfoLogLen : Nat
  /-- The C string read from the program info-log buffer
  (`shader.cpp:169`-`170`). -/
  programInfoLog : String
  /-- The active uniforms `glGetActiveUniform` enumerates by index:
  name, array size, type enum (`shader.cpp:213`). -/
  activeUniforms : List (String × Int × Nat)
  /-- `glGetUniformLocation` by name (`shader.cpp:214`). -/
  uniformLocation : String → Int

/-- State-changing GL calls issued by the module, for trace properties. -/
inductive GLCall where
  | createShader (ty : Nat) (id : Nat)
  | shaderSource (id : Nat) (src : String)
  | compileShader (id : Nat)
  | attachShader (prog : Nat) (id : Nat)
  | linkProgram (prog : Nat)
  | detachShader (prog : Nat) (id : Nat)
  | deleteShader (id : Nat)
  | useProgram (prog : Nat)
deriving DecidableEq, Repr

/-- Exceptions thrown by `Shader::Shader`; each carries the `err` string
built by the corresponding `ShaderException` subclass constructor. -/
inductive ShaderException where
  | compileError (err : String)
  | linkError (err : String)
deriving DecidableEq, Repr

/-- The `err` message built by `ShaderE_CompileError::ShaderE_CompileError`
(`shader.cpp:47`-`62`). -/
def shaderE_CompileError (codeStr errStr : String) : String :=
  "Shader compile error:\n" ++ errStr ++
    (if codeStr = "" then "" else "\n    -- SHADER CODE --\n" ++ codeStr)

/-- The `err` message built by `ShaderE_LinkError::ShaderE_LinkError`
(`shader.cpp:64`-`70`). -/
def shaderE_LinkError (errStr : String) : String :=
  "Shader link error:\n" ++ errStr

/-- The stage loop of `Shader::Shader` (`shader.cpp:144`-`154`) together
with the `compile` lambda (`shader.cpp:118`-`134`): walk the remaining
stage slots in order, skip empty sources, otherwise create a shader object
(ids are allocated consecutively from `nid`), submit the source and compile
it; on the first failed compile status, stop with the `CompileError`
message.  Returns the trace, the collected `ids` vector, and the thrown
message if any. -/
def compileAll (cs : Fin 5 → Bool) (logs : Fin 5 → String) (src : ShaderProgram) :
    List (Fin 5) → Nat → List GLCall × List Nat × Option String
  | [], _ => ([], [], none)
  | i :: rest, nid =>
    if src.sources i = "" then
      compileAll cs logs src rest nid
    else if cs i then
      (GLCall.createShader (shaderTypes i) nid ::
         GLCall.shaderSource nid (src.sources i) ::
         GLCall.compileShader nid :: (compileAll cs logs src rest (nid + 1)).1,
       nid :: (compileAll cs logs src rest (nid + 1)).2.1,
       (compileAll cs logs src rest (nid + 1)).2.2)
    else
      ([GLCall.createShader (shaderTypes i) nid,
        GLCall.shaderSource nid (src.sources i),
        GLCall.compileShader nid],
       [nid],
       some (shaderE_CompileError (src.sources i) (logs i)))

/-- `std::map::operator[]` followed by assignment (`shader.cpp:215`):
overwrite the entry of an existing key, insert otherwise. -/
def mapAssign : List (String × UniformData) → String → UniformData →
    List (String × UniformData)
  | [], k, v => [(k, v)]
  | (k₀, v₀) :: rest, k, v =>
    if k₀ = k then (k, v) :: rest else (k₀, v₀) :: mapAssign rest k v

/-- `std::map::find` (`shader.cpp:197`). -/
def mapFind : List (String × UniformData) → String → Option UniformData
  | [], _ => none
  | (k₀, v₀) :: rest, k => if k₀ = k then some v₀ else mapFind rest k

/-- The entry `Shader::initUniforms` stores for one enumerated uniform:
size and type from the index-based `glGetActiveUniform` query, location
from the name-based `glGetUniformLocation` query (`shader.cpp:213`-`214`). -/
def uniformEntry (d : Driver) (u : String × Int × Nat) : UniformData :=
  UniformData.mk u.2.1 u.2.2 (d.uniformLocation u.1)

/-- The loop of `Shader::initUniforms` (`shader.cpp:211`-`216`) over a
given enumeration: assign each uniform's entry into the map, keyed by
name. -/
def initUniformsAux (d : Driver) (l : List (String × Int × Nat)) :
    List (String × UniformData) :=
  l.foldl (fun m u => mapAssign m u.1 (uniformEntry d u)) []

/-- `Shader::initUniforms` (`shader.cpp:202`-`217`): enumerate the
driver's active uniforms by index 0..count-1 and build the table. -/
def initUniforms (d : Driver) : List (String × UniformData) :=
  initUniformsAux d d.activeUniforms

/-- The `Shader::Shared` data a `Shader` handle references: the program id
from `glCreateProgram` and the uniform table. -/
structure Shader where
  program : Nat
  uniforms : List (String × UniformData)
deriving DecidableEq, Repr

/-- The detach-and-delete loop of `Shader::Shader`
(`shader.cpp:174`-`178`). -/
def cleanupCalls (prog : Nat) : List Nat → List GLCall
  | [] => []
  | id :: rest =>
      GLCall.detachShader prog id :: GLCall.deleteShader id ::
        cleanupCalls prog rest

/-- `Shader::Shader(const ShaderProgram&)` (`shader.cpp:115`-`181`):
compile the non-empty stages in order, attach all compiled ids, link,
query the link status; on failure throw `ShaderE_LinkError` only when the
reported log length is at least 1; otherwise fall through, detach and
delete the stage ids and build the uniform table.  `prog` is the id
returned by `glCreateProgram` in `Shared::Shared`.  Returns the trace of
state-changing GL calls and the result. -/
def constructShader (d : Driver) (prog : Nat) (src : ShaderProgram) :
    List GLCall × Except ShaderException Shader :=
  match (compileAll d.compileStatus d.shaderInfoLog src (List.finRange 5) 1).2.2 with
  | some e =>
    ((compileAll d.compileStatus d.shaderInfoLog src (List.finRange 5) 1).1,
     Except.error (ShaderException.compileError e))
  | none =>
    if d.linkStatus = false ∧ 1 ≤ d.programInfoLogLen then
      ((compileAll d.compileStatus d.shaderInfoLog src (List.finRange 5) 1).1 ++
         (compileAll d.compileStatus d.shaderInfoLog src (List.finRange 5) 1).2.1.map
           (fun id => GLCall.attachShader prog id) ++ [GLCall.linkProgram prog],
       Except.error (ShaderException.linkError (shaderE_LinkError d.programInfoLog)))
    else
      ((compileAll d.compileStatus d.shaderInfoLog src (List.finRange 5) 1).1 ++
         (compileAll d.compileStatus d.shaderInfoLog src (List.finRange 5) 1).2.1.map
           (fun id => GLCall.attachShader prog id) ++ [GLCall.linkProgram prog] ++
         cleanupCalls prog
           (compileAll d.compileStatus d.shaderInfoLog src (List.finRange 5) 1).2.1,
       Except.ok (Shader.mk prog (initUniforms d)))

/-- Thread ids, for the `thread_local` storage class of
`Shader::boundProgram` (`shader.cpp:40`). -/
abbrev ThreadId := Nat

/-- The per-thread `boundProgram` slots: each thread's currently bound
program id. -/
abbrev BindState := ThreadId → Nat

/-- `thread_local GLuint Shader::boundProgram = 0` (`shader.cpp:40`):
every thread's slot starts at 0. -/
def initialBindState : BindState := fun _ => 0

/-- `Shader::isBound` (`shader.cpp:190`-`193`) as observed by thread `t`. -/
def Shader.isBound (s : Shader) (t : ThreadId) (st : BindState) : Bool :=
  st t == s.program

/-- `Shader::bind` (`shader.cpp:183`-`188`) called from thread `t`:
returns the new bind state and the GL calls issued. -/
def Shader.bind (s : Shader) (t : ThreadId) (st : BindState) :
    BindState × List GLCall :=
  if s.isBound t st then (st, [])
  else (Function.update st t s.program, [GLCall.useProgram s.program])

/-- The `Shader::Uniform` value (`shader.cpp:100`-`103`): a back-reference
to the shader and the found table entry, `none` standing for the null
`data` pointer. -/
structure Uniform where
  shader : Shader
  data : Option UniformData
deriving DecidableEq, Repr

/-- `Shader::uniform` (`shader.cpp:195`-`200`). -/
def Shader.uniform (s : Shader) (name : String) : Uniform :=
  match mapFind s.uniforms name with
  | none => Uniform.mk s none
  | some u => Uniform.mk s (some u)

/-- The buffer indices accessed in the compile-failure branch
(`shader.cpp:130`-`132`) when the driver writes `written` characters:
`glGetShaderInfoLog` writes `log[0] .. log[written-1]`, and `&log[0]` is
formed (and the C string starting there read) to build the error, so index
0 is accessed as well. -/
def compileLogAccesses (written : Nat) : List Nat :=
  0 :: List.range written

/-- The compile-failure branch's buffer accesses all fall inside the
buffer `std::vector<GLchar> log(len)` allocated at `shader.cpp:130`. -/
def compileLogAccessesInBounds (len written : Nat) : Prop :=
  ∀ j ∈ compileLogAccesses written, j < len

/-- `s` contains `sub` as a (contiguous) substring. -/
def strContains (s sub : String) : Prop :=
  ∃ a b, s = a ++ sub ++ b

/-- The same driver answers but with the link reported successful; used to
state that a status-failed link with an empty log proceeds exactly as a
successful one. -/
def withLinkTrue (d : Driver) : Driver :=
  Driver.mk d.compileStatus d.shaderInfoLogLen d.shaderInfoLog true
    d.programInfoLogLen d.programInfoLog d.activeUniforms d.uniformLocation

/-- The compile-failure claim (C3) as stated, instantiated at one input:
if stage `i`'s compile status reports failure then construction aborts
with a `CompileError` whose message contains the stage source and a
non-empty diagnostic fetched from the driver log. -/
def compileErrorClaimAt (d : Driver) (prog : Nat) (src : ShaderProgram)
    (i : Fin 5) : Prop :=
  d.compileStatus i = false →
    ∃ msg, (constructShader d prog src).2 =
        Except.error (ShaderException.compileError msg) ∧
      strContains msg (src.sources i) ∧
      d.shaderInfoLog i ≠ "" ∧ strContains msg (d.shaderInfoLog i)

/-- A vertex-only source set, for concrete evaluations. -/
def vertexOnlySrc : ShaderProgram :=
  ShaderProgram.mk (fun i => if i = 0 then "v" else "")

/-- Driver answers: compiles succeed, link fails, one-character log. -/
def linkFailDriver : Driver :=
  Driver.mk (fun _ => true) (fun _ => 0) (fun _ => "") false 1 "x" []
    (fun _ => -1)

/-- Driver answers: everything succeeds, no active uniforms. -/
def okDriver : Driver :=
  Driver.mk (fun _ => true) (fun _ => 0) (fun _ => "") true 0 "" []
    (fun _ => -1)

/-- Driver answers: every compile fails and the driver has no log text. -/
def compileFailEmptyLogDriver : Driver :=
  Driver.mk (fun _ => false) (fun _ => 0) (fun _ => "") true 0 "" []
    (fun _ => -1)

/-- Driver answers: every compile fails with log text "bad!". -/
def compileFailDriver : Driver :=
  Driver.mk (fun _ => false) (fun _ => 5) (fun _ => "bad!") true 0 "" []
    (fun _ => -1)

/-- Driver answers: success, two active uniforms with distinct names. -/
def uniformsDriver : Driver :=
  Driver.mk (fun _ => true) (fun _ => 0) (fun _ => "") true 0 ""
    [("u_color", 1, 35666), ("u_mvp", 1, 35676)]
    (fun n => if n = "u_color" then 0 else 1)

/-- The stage-kind enums of the `glCreateShader` calls of a trace, in
order. -/
def createdTypes (tr : List GLCall) : List Nat :=
  tr.filterMap fun c =>
    match c with
    | GLCall.createShader ty _ => some ty
    | _ => none

/-! ## Helper lemmas -/

theorem str_append_assoc (a b c : String) : a ++ b ++ c = a ++ (b ++ c) := by
  apply String.ext
  simp [String.data_append, List.append_assoc]

theorem compileAll_err_none (cs : Fin 5 → Bool) (logs : Fin 5 → String)
    (src : ShaderProgram) (l : List (Fin 5)) (n : Nat)
    (h : ∀ i ∈ l, src.sources i ≠ "" → cs i = true) :
    (compileAll cs logs src l n).2.2 = none := by
  induction l generalizing n with
  | nil => rfl
  | cons i rest ih =>
    have hrest : ∀ j ∈ rest, src.sources j ≠ "" → cs j = true :=
      fun j hj => h j (List.mem_cons_of_mem i hj)
    by_cases he : src.sources i = ""
    · simpa [compileAll, he] using ih n hrest
    · have hc : cs i = true := h i (List.mem_cons_self i rest) he
      simpa [compileAll, he, hc] using ih (n + 1) hrest

theorem compileAll_err_first (cs : Fin 5 → Bool) (logs : Fin 5 → String)
    (src : ShaderProgram) (i : Fin 5) (l₁ l₂ : List (Fin 5)) (n : Nat)
    (h₁ : ∀ j ∈ l₁, src.sources j ≠ "" → cs j = true)
    (hi : src.sources i ≠ "") (hf : cs i = false) :
    (compileAll cs logs src (l₁ ++ i :: l₂) n).2.2 =
      some (shaderE_CompileError (src.sources i) (logs i)) := by
  induction l₁ generalizing n with
  | nil => simp [compileAll, hi, hf]
  | cons j l₁ ih =>
    have hl₁ : ∀ k ∈ l₁, src.sources k ≠ "" → cs k = true :=
      fun k hk => h₁ k (List.mem_cons_of_mem j hk)
    by_cases he : src.sources j = ""
    · simpa [compileAll, he] using ih n hl₁
    · have hc : cs j = true := h₁ j (List.mem_cons_self j l₁) he
      simpa [compileAll, he, hc] using ih (n + 1) hl₁

theorem attach_not_mem_compileAll (cs : Fin 5 → Bool) (logs : Fin 5 → String)
    (src : ShaderProgram) (l : List (Fin 5)) (n p q : Nat) :
    GLCall.attachShader p q ∉ (compileAll cs logs src l n).1 := by
  induction l generalizing n with
  | nil => simp [compileAll]
  | cons i rest ih =>
    by_cases he : src.sources i = ""
    · simpa [compileAll, he] using ih n
    · by_cases hc : cs i
      · simpa [compileAll, he, hc] using ih (n + 1)
      · simp [compileAll, he, hc]

theorem attach_not_mem_cleanupCalls (p q r : Nat) (ids : List Nat) :
    GLCall.attachShader p q ∉ cleanupCalls r ids := by
  induction ids with
  | nil => simp [cleanupCalls]
  | cons a rest ih => simp [cleanupCalls, ih]

theorem mem_cleanupCalls (p id : Nat) (ids : List Nat) (h : id ∈ ids) :
    GLCall.detachShader p id ∈ cleanupCalls p ids ∧
    GLCall.deleteShader id ∈ cleanupCalls p ids := by
  induction ids with
  | nil => cases h
  | cons a rest ih =>
    rcases List.mem_cons.mp h with rfl | h
    · simp [cleanupCalls]
    · have := ih h
      simp [cleanupCalls, this.1, this.2]

theorem constructShader_err_some (d : Driver) (prog : Nat)
    (src : ShaderProgram) (e : String)
    (h : (compileAll d.compileStatus d.shaderInfoLog src (List.finRange 5) 1).2.2 =
      some e) :
    constructShader d prog src =
      ((compileAll d.compileStatus d.shaderInfoLog src (List.finRange 5) 1).1,
       Except.error (ShaderException.compileError e)) := by
  unfold constructShader
  rw [h]

theorem constructShader_err_none (d : Driver) (prog : Nat) (src : ShaderProgram)
    (h : (compileAll d.compileStatus d.shaderInfoLog src (List.finRange 5) 1).2.2 =
      none) :
    constructShader d prog src =
      (if d.linkStatus = false ∧ 1 ≤ d.programInfoLogLen then
        ((compileAll d.compileStatus d.shaderInfoLog src (List.finRange 5) 1).1 ++
           (compileAll d.compileStatus d.shaderInfoLog src (List.finRange 5) 1).2.1.map
             (fun id => GLCall.attachShader prog id) ++ [GLCall.linkProgram prog],
         Except.error (ShaderException.linkError (shaderE_LinkError d.programInfoLog)))
      else
        ((compileAll d.compileStatus d.shaderInfoLog src (List.finRange 5) 1).1 ++
           (compileAll d.compileStatus d.shaderInfoLog src (List.finRange 5) 1).2.1.map
             (fun id => GLCall.attachShader prog id) ++ [GLCall.linkProgram prog] ++
           cleanupCalls prog
             (compileAll d.compileStatus d.shaderInfoLog src (List.finRange 5) 1).2.1,
         Except.ok (Shader.mk prog (initUniforms d)))) := by
  unfold constructShader
  rw [h]

theorem mapFind_mapAssign (m : List (String × UniformData)) (k : String)
    (v : UniformData) (q : String) :
    mapFind (mapAssign m k v) q = if k = q then some v else mapFind m q := by
  induction m with
  | nil =>
    by_cases hq : k = q <;> simp [mapAssign, mapFind, hq]
  | cons a rest ih =>
    obtain ⟨k₀, v₀⟩ := a
    by_cases hk : k₀ = k
    · subst hk
      by_cases hq : k₀ = q <;> simp [mapAssign, mapFind, hq]
    · by_cases hq : k₀ = q
      · subst hq
        have hkq : ¬ k = k₀ := fun hh => hk hh.symm
        simp [mapAssign, mapFind, hk, hkq]
      · simp [mapAssign, mapFind, hk, hq, ih]

theorem initUniformsAux_append (d : Driver) (l : List (String × Int × Nat))
    (u : String × Int × Nat) :
    initUniformsAux d (l ++ [u]) =
      mapAssign (initUniformsAux d l) u.1 (uniformEntry d u) := by
  simp [initUniformsAux, List.foldl_append]

theorem mapFind_initUniformsAux (d : Driver) (l : List (String × Int × Nat))
    (q : String) :
    mapFind (initUniformsAux d l) q =
      ((l.filter fun u => u.1 == q).getLast?).map (uniformEntry d) := by
  induction l using List.reverseRecOn with
  | nil => rfl
  | append_singleton l u ih =>
    rw [initUniformsAux_append, mapFind_mapAssign, List.filter_append]
    by_cases hq : u.1 = q
    · rw [if_pos hq]
      simp [hq, List.getLast?_concat]
    · rw [if_neg hq, ih]
      simp [hq]

theorem keys_mapAssign_not_mem (m : List (String × UniformData)) (k : String)
    (v : UniformData) (h : k ∉ m.map fun e => e.1) :
    (mapAssign m k v).map (fun e => e.1) = (m.map fun e => e.1) ++ [k] := by
  induction m with
  | nil => simp [mapAssign]
  | cons a rest ih =>
    obtain ⟨k₀, v₀⟩ := a
    have hk : ¬ k₀ = k := by
      intro hh
      exact h (by simp [hh])
    simp only [mapAssign, if_neg hk, List.map_cons]
    rw [ih (fun hm => h (by simp [hm]))]
    simp

theorem keys_initUniformsAux (d : Driver) (l : List (String × Int × Nat))
    (h : (l.map fun u => u.1).Nodup) :
    (initUniformsAux d l).map (fun e => e.1) = l.map fun u => u.1 := by
  induction l using List.reverseRecOn with
  | nil => rfl
  | append_singleton l u ih =>
    rw [List.map_append] at h ⊢
    have h1 : (l.map fun u => u.1).Nodup := h.of_append_left
    have hnot : u.1 ∉ l.map fun u => u.1 := by
      have hdisj := (List.nodup_append.mp h).2.2
      intro hmem
      exact hdisj hmem (List.mem_singleton_self _)
    have hnotmem : u.1 ∉ (initUniformsAux d l).map fun e => e.1 := by
      rw [ih h1]
      exact hnot
    rw [initUniformsAux_append, keys_mapAssign_not_mem _ _ _ hnotmem, ih h1]
    simp

theorem createdTypes_append (t₁ t₂ : List GLCall) :
    createdTypes (t₁ ++ t₂) = createdTypes t₁ ++ createdTypes t₂ :=
  List.filterMap_append _ _ _

theorem createdTypes_attach_map (p : Nat) (ids : List Nat) :
    createdTypes (ids.map fun id => GLCall.attachShader p id) = [] := by
  induction ids with
  | nil => rfl
  | cons a rest ih => simp [createdTypes] at ih ⊢

theorem createdTypes_cleanup (p : Nat) (ids : List Nat) :
    createdTypes (cleanupCalls p ids) = [] := by
  induction ids with
  | nil => rfl
  | cons a rest ih => simpa [cleanupCalls, createdTypes] using ih

theorem createdTypes_link (p : Nat) :
    createdTypes [GLCall.linkProgram p] = [] := rfl

theorem createdTypes_compileAll (cs : Fin 5 → Bool) (logs : Fin 5 → String)
    (src : ShaderProgram) (l : List (Fin 5)) (n : Nat)
    (h : ∀ i ∈ l, src.sources i ≠ "" → cs i = true) :
    createdTypes (compileAll cs logs src l n).1 =
      (l.filter fun i => !(src.sources i == "")).map shaderTypes := by
  induction l generalizing n with
  | nil => rfl
  | cons i rest ih =>
    have hrest : ∀ j ∈ rest, src.sources j ≠ "" → cs j = true :=
      fun j hj => h j (List.mem_cons_of_mem i hj)
    by_cases he : src.sources i = ""
    · simpa [compileAll, createdTypes, he] using ih n hrest
    · have hc : cs i = true := h i (List.mem_cons_self i rest) he
      simpa [compileAll, createdTypes, he, hc] using ih (n + 1) hrest

theorem createdTypes_compileAll_all (cs : Fin 5 → Bool) (logs : Fin 5 → String)
    (src : ShaderProgram) (l : List (Fin 5)) (n : Nat) :
    createdTypes (compileAll cs logs src l n).1 =
      ((l.filter fun i => !(src.sources i == "")).takeWhile (fun i => cs i) ++
        ((l.filter fun i => !(src.sources i == "")).dropWhile
          (fun i => cs i)).take 1).map shaderTypes := by
  induction l generalizing n with
  | nil => rfl
  | cons i rest ih =>
    by_cases he : src.sources i = ""
    · simpa [compileAll, List.filter_cons, he] using ih n
    · by_cases hc : cs i
      · simpa [compileAll, createdTypes, List.filter_cons, he, hc,
          List.takeWhile_cons, List.dropWhile_cons] using ih (n + 1)
      · simp [compileAll, createdTypes, List.filter_cons, he, hc,
          List.takeWhile_cons, List.dropWhile_cons]

/-! ## Theorems -/

/-- C4: `isBound()` on thread `t` is true exactly when the Shader's
program id equals `t`'s `boundProgram` slot, and after `bind()` on `t`
the same thread observes `isBound() = true`. -/
theorem shader_C4 (s : Shader) (t : ThreadId) (st : BindState) :
    (s.isBound t st = true ↔ st t = s.program) ∧
    s.isBound t (s.bind t st).1 = true := by
  constructor
  · simp [Shader.isBound]
  · by_cases h : s.isBound t st
    · simp [Shader.bind, h]
    · simp only [Shader.isBound, beq_iff_eq] at h
      simp [Shader.bind, Shader.isBound, h]

/-- C5: `bind()` is idempotent: when the program is already the calling
thread's active one it issues no GL call and leaves the state unchanged,
and a second `bind()` right after a first one changes nothing. -/
theorem shader_C5 (s : Shader) (t : ThreadId) (st : BindState) :
    (s.isBound t st = true → s.bind t st = (st, [])) ∧
    s.bind t (s.bind t st).1 = ((s.bind t st).1, []) := by
  have h1 : ∀ st₂ : BindState, s.isBound t st₂ = true → s.bind t st₂ = (st₂, []) :=
    fun st₂ h => by simp [Shader.bind, h]
  exact ⟨h1 st, h1 _ ((shader_C4 s t st).2)⟩

/-- C5 witness at a concrete already-bound state. -/
theorem shader_C5_witness :
    ((Shader.mk 5 []).isBound 0 (fun _ => 5) = true ∧
      (Shader.mk 5 []).bind 0 (fun _ => 5) = ((fun _ => 5), [])) ∧
    (Shader.mk 5 []).bind 0 (((Shader.mk 5 []).bind 0 (fun _ => 5)).1) =
      (((Shader.mk 5 []).bind 0 (fun _ => 5)).1, []) := by
  refine ⟨⟨rfl, ?_⟩, (shader_C5 (Shader.mk 5 []) 0 (fun _ => 5)).2⟩
  exact (shader_C5 (Shader.mk 5 []) 0 (fun _ => 5)).1 rfl

/-- C6: `uniform(name)` is pure table lookup: the returned reference's
entry is exactly the table's entry for `name` (absent when the name is
missing, present when found), and the back-reference is the queried
Shader; being a total function, it raises nothing. -/
theorem shader_C6 (s : Shader) (name : String) :
    (s.uniform name).data = mapFind s.uniforms name ∧
    (s.uniform name).shader = s := by
  unfold Shader.uniform
  cases mapFind s.uniforms name <;> simp

/-- C9: `bind()` on thread `t` leaves every other thread's slot, and thus
every `isBound()` answer observed on another thread, unchanged. -/
theorem shader_C9 (s : Shader) (t u : ThreadId) (st : BindState)
    (h : u ≠ t) :
    (s.bind t st).1 u = st u ∧
    ∀ s₂ : Shader, s₂.isBound u (s.bind t st).1 = s₂.isBound u st := by
  have key : (s.bind t st).1 u = st u := by
    by_cases hb : s.isBound t st
    · simp [Shader.bind, hb]
    · simp [Shader.bind, hb, Function.update_noteq h]
  exact ⟨key, fun s₂ => by simp [Shader.isBound, key]⟩

/-- C9 witness: binding program 5 on thread 0 leaves thread 1 alone. -/
theorem shader_C9_witness :
    (1 : ThreadId) ≠ (0 : ThreadId) ∧
    ((Shader.mk 5 []).bind 0 initialBindState).1 1 = initialBindState 1 ∧
    ∀ s₂ : Shader, s₂.isBound 1 ((Shader.mk 5 []).bind 0 initialBindState).1 =
      s₂.isBound 1 initialBindState := by
  refine ⟨by decide, ?_⟩
  have h := shader_C9 (Shader.mk 5 []) 0 1 initialBindState (by decide)
  exact ⟨h.1, h.2⟩

/-- C10: the compile-failure branch's info-log buffer accesses stay in
bounds precisely when the driver-reported log length is at least 1 (for
`&log[0]`) and at least the number of characters the log fetch writes. -/
theorem shader_C10 (d : Driver) (i : Fin 5) (written : Nat) :
    compileLogAccessesInBounds (d.shaderInfoLogLen i) written ↔
      1 ≤ d.shaderInfoLogLen i ∧ written ≤ d.shaderInfoLogLen i := by
  constructor
  · intro h
    refine ⟨h 0 (by simp [compileLogAccesses]), ?_⟩
    cases hw : written with
    | zero => exact Nat.zero_le _
    | succ w =>
      have := h w (by simp [compileLogAccesses, hw, List.mem_range])
      omega
  · rintro ⟨h1, h2⟩ j hj
    simp only [compileLogAccesses, List.mem_cons, List.mem_range] at hj
    rcases hj with rfl | hj <;> omega

/-- C1 counterexample: with one compiled vertex stage and a link failure
whose reported log length is 1, the stage is attached but the trace holds
no detach and no delete for it — the `LinkError` throw skips the cleanup
loop. -/
theorem shader_C1_counterexample :
    GLCall.attachShader 7 1 ∈ (constructShader linkFailDriver 7 vertexOnlySrc).1 ∧
    GLCall.detachShader 7 1 ∉ (constructShader linkFailDriver 7 vertexOnlySrc).1 ∧
    GLCall.deleteShader 1 ∉ (constructShader linkFailDriver 7 vertexOnlySrc).1 := by
  decide

/-- C1 amended: every attached stage handle is detached and deleted in
every construction that does not abort with a `LinkError`; when a
`LinkError` is thrown the attached handles stay attached and undeleted. -/
theorem shader_C1_amended (d : Driver) (prog : Nat) (src : ShaderProgram)
    (h : ∀ e, (constructShader d prog src).2 ≠
      Except.error (ShaderException.linkError e)) :
    ∀ id, GLCall.attachShader prog id ∈ (constructShader d prog src).1 →
      GLCall.detachShader prog id ∈ (constructShader d prog src).1 ∧
      GLCall.deleteShader id ∈ (constructShader d prog src).1 := by
  intro id hmem
  cases herr : (compileAll d.compileStatus d.shaderInfoLog src
      (List.finRange 5) 1).2.2 with
  | some e =>
    rw [constructShader_err_some d prog src e herr] at hmem
    exact absurd hmem (attach_not_mem_compileAll _ _ _ _ _ _ _)
  | none =>
    rw [constructShader_err_none d prog src herr] at hmem h ⊢
    by_cases hl : d.linkStatus = false ∧ 1 ≤ d.programInfoLogLen
    · rw [if_pos hl] at h
      exact absurd rfl (h (shaderE_LinkError d.programInfoLog))
    · rw [if_neg hl] at hmem ⊢
      have hid : id ∈ (compileAll d.compileStatus d.shaderInfoLog src
          (List.finRange 5) 1).2.1 := by
        simp only [List.mem_append, List.mem_map, List.mem_singleton] at hmem
        rcases hmem with ((hc | ⟨x, hx, heq⟩) | hlink) | hclean
        · exact absurd hc (attach_not_mem_compileAll _ _ _ _ _ _ _)
        · injection heq with h1 h2
          exact h2 ▸ hx
        · exact GLCall.noConfusion hlink
        · exact absurd hclean (attach_not_mem_cleanupCalls _ _ _ _)
      exact ⟨List.mem_append.mpr (Or.inr (mem_cleanupCalls prog id _ hid).1),
        List.mem_append.mpr (Or.inr (mem_cleanupCalls prog id _ hid).2)⟩

/-- C1 amended, witness: a successful construction cleans up its stage. -/
theorem shader_C1_witness :
    (∀ e, (constructShader okDriver 7 vertexOnlySrc).2 ≠
      Except.error (ShaderException.linkError e)) ∧
    (∀ id, GLCall.attachShader 7 id ∈ (constructShader okDriver 7 vertexOnlySrc).1 →
      GLCall.detachShader 7 id ∈ (constructShader okDriver 7 vertexOnlySrc).1 ∧
      GLCall.deleteShader id ∈ (constructShader okDriver 7 vertexOnlySrc).1) := by
  have hh : ∀ e, (constructShader okDriver 7 vertexOnlySrc).2 ≠
      Except.error (ShaderException.linkError e) := by
    intro e h
    have hok : (constructShader okDriver 7 vertexOnlySrc).2 =
        Except.ok (Shader.mk 7 []) := rfl
    rw [hok] at h
    cases h
  exact ⟨hh, shader_C1_amended okDriver 7 vertexOnlySrc hh⟩

/-- C2: when every attempted compile succeeds and the link status reports
failure, a `LinkError` carrying the program log is raised iff the
reported log length is at least 1; at length 0 the construction is
exactly the one a successful link would have produced. -/
theorem shader_C2 (d : Driver) (prog : Nat) (src : ShaderProgram)
    (hc : ∀ i, src.sources i ≠ "" → d.compileStatus i = true)
    (hl : d.linkStatus = false) :
    ((constructShader d prog src).2 =
        Except.error (ShaderException.linkError
          (shaderE_LinkError d.programInfoLog)) ↔
      1 ≤ d.programInfoLogLen) ∧
    (d.programInfoLogLen = 0 →
      constructShader d prog src = constructShader (withLinkTrue d) prog src) := by
  have herr : (compileAll d.compileStatus d.shaderInfoLog src
      (List.finRange 5) 1).2.2 = none :=
    compileAll_err_none _ _ _ _ _ (fun i _ => hc i)
  constructor
  · rw [constructShader_err_none d prog src herr]
    by_cases hlen : 1 ≤ d.programInfoLogLen
    · rw [if_pos ⟨hl, hlen⟩]
      simpa using hlen
    · rw [if_neg (fun hcon => hlen hcon.2)]
      exact ⟨fun hcon => (by cases hcon), fun hcon => absurd hcon hlen⟩
  · intro h0
    rw [constructShader_err_none d prog src herr,
        constructShader_err_none (withLinkTrue d) prog src herr]
    rw [if_neg (fun hcon => by omega), if_neg (fun hcon => by
      have := hcon.1
      simp [withLinkTrue] at this)]
    rfl

/-- C2 witness: link failed with log length 1 produces the `LinkError`. -/
theorem shader_C2_witness :
    (∀ i, vertexOnlySrc.sources i ≠ "" → linkFailDriver.compileStatus i = true) ∧
    linkFailDriver.linkStatus = false ∧
    (((constructShader linkFailDriver 7 vertexOnlySrc).2 =
        Except.error (ShaderException.linkError
          (shaderE_LinkError linkFailDriver.programInfoLog)) ↔
      1 ≤ linkFailDriver.programInfoLogLen) ∧
    (linkFailDriver.programInfoLogLen = 0 →
      constructShader linkFailDriver 7 vertexOnlySrc =
        constructShader (withLinkTrue linkFailDriver) 7 vertexOnlySrc)) :=
  ⟨fun _ _ => rfl, rfl, shader_C2 linkFailDriver 7 vertexOnlySrc (fun _ _ => rfl) rfl⟩

/-- C3 counterexample: the vertex stage's compile status reports failure
but the driver's log text is empty, so no `CompileError` message contains
a non-empty diagnostic fetched from the driver log. -/
theorem shader_C3_counterexample :
    ¬ compileErrorClaimAt compileFailEmptyLogDriver 7 vertexOnlySrc 0 := by
  intro hclaim
  obtain ⟨msg, -, -, hne, -⟩ := hclaim rfl
  exact hne rfl

/-- C3 amended: for the first (in stage order) non-empty stage whose
compile status reports failure, construction aborts with a `CompileError`
whose message contains the stage's source text and the diagnostic text
fetched from the driver log — the diagnostic being non-empty only when
the driver supplies a non-empty log. -/
theorem shader_C3_amended (d : Driver) (prog : Nat) (src : ShaderProgram)
    (i : Fin 5) (hi : src.sources i ≠ "") (hf : d.compileStatus i = false)
    (hfirst : ∀ j : Fin 5, j < i → src.sources j ≠ "" → d.compileStatus j = true) :
    (constructShader d prog src).2 = Except.error (ShaderException.compileError
      (shaderE_CompileError (src.sources i) (d.shaderInfoLog i))) ∧
    strContains (shaderE_CompileError (src.sources i) (d.shaderInfoLog i))
      (src.sources i) ∧
    strContains (shaderE_CompileError (src.sources i) (d.shaderInfoLog i))
      (d.shaderInfoLog i) := by
  have hsplit : List.finRange 5 =
      ((List.finRange 5).filter fun j => decide (j < i)) ++ i ::
        ((List.finRange 5).filter fun j => decide (i < j)) := by
    fin_cases i <;> decide
  have h₁ : ∀ j ∈ (List.finRange 5).filter fun j => decide (j < i),
      src.sources j ≠ "" → d.compileStatus j = true :=
    fun j hj => hfirst j (of_decide_eq_true (List.mem_filter.mp hj).2)
  have herr : (compileAll d.compileStatus d.shaderInfoLog src
      (List.finRange 5) 1).2.2 =
      some (shaderE_CompileError (src.sources i) (d.shaderInfoLog i)) := by
    rw [hsplit]
    exact compileAll_err_first d.compileStatus d.shaderInfoLog src i _ _ 1 h₁ hi hf
  refine ⟨by rw [constructShader_err_some d prog src _ herr], ?_, ?_⟩
  · refine ⟨"Shader compile error:\n" ++ d.shaderInfoLog i ++
      "\n    -- SHADER CODE --\n", "", ?_⟩
    rw [shaderE_CompileError, if_neg hi]
    apply String.ext
    simp [String.data_append]
  · exact ⟨"Shader compile error:\n",
      if src.sources i = "" then "" else
        "\n    -- SHADER CODE --\n" ++ src.sources i, rfl⟩

/-- C3 amended, witness: vertex stage fails with log "bad!". -/
theorem shader_C3_witness :
    (vertexOnlySrc.sources 0 ≠ "" ∧ compileFailDriver.compileStatus 0 = false ∧
      (∀ j : Fin 5, j < 0 → vertexOnlySrc.sources j ≠ "" →
        compileFailDriver.compileStatus j = true)) ∧
    ((constructShader compileFailDriver 7 vertexOnlySrc).2 =
        Except.error (ShaderException.compileError
          (shaderE_CompileError (vertexOnlySrc.sources 0)
            (compileFailDriver.shaderInfoLog 0))) ∧
     strContains (shaderE_CompileError (vertexOnlySrc.sources 0)
        (compileFailDriver.shaderInfoLog 0)) (vertexOnlySrc.sources 0) ∧
     strContains (shaderE_CompileError (vertexOnlySrc.sources 0)
        (compileFailDriver.shaderInfoLog 0)) (compileFailDriver.shaderInfoLog 0)) := by
  refine ⟨⟨by decide, rfl, by decide⟩, ?_⟩
  exact shader_C3_amended compileFailDriver 7 vertexOnlySrc 0 (by decide) rfl (by decide)

/-- C7: uniform-table introspection joins per-index metadata with the
name-resolved location, keyed by name: with distinct names the table has
exactly one entry per enumerated uniform, its key list being the
enumerated name list, and in general a name's entry is that of its last
enumerated occurrence (last write wins); the operation is total, with no
error path. -/
theorem shader_C7 (d : Driver) :
    ((d.activeUniforms.map fun u => u.1).Nodup →
      (initUniforms d).length = d.activeUniforms.length ∧
      ((initUniforms d).map fun e => e.1) = d.activeUniforms.map fun u => u.1) ∧
    ∀ q, mapFind (initUniforms d) q =
      ((d.activeUniforms.filter fun u => u.1 == q).getLast?).map (uniformEntry d) := by
  refine ⟨fun h => ?_, fun q => mapFind_initUniformsAux d _ q⟩
  have hk := keys_initUniformsAux d _ h
  refine ⟨?_, hk⟩
  have hlen := congrArg List.length hk
  simpa using hlen

/-- C7 witness: two distinct-named uniforms yield a two-entry table. -/
theorem shader_C7_witness :
    ((uniformsDriver.activeUniforms.map fun u => u.1).Nodup ∧
      (initUniforms uniformsDriver).length = uniformsDriver.activeUniforms.length ∧
      ((initUniforms uniformsDriver).map fun e => e.1) =
        uniformsDriver.activeUniforms.map fun u => u.1) ∧
    ∀ q, mapFind (initUniforms uniformsDriver) q =
      ((uniformsDriver.activeUniforms.filter fun u => u.1 == q).getLast?).map
        (uniformEntry uniformsDriver) := by
  have hnd : (uniformsDriver.activeUniforms.map fun u => u.1).Nodup := by decide
  exact ⟨⟨hnd, (shader_C7 uniformsDriver).1 hnd⟩, (shader_C7 uniformsDriver).2⟩

/-- C8: in every construction, the stage objects created (and compiled)
are exactly the non-empty stage slots in the fixed order vertex,
tess-control, tess-eval, geometry, fragment, truncated at the first
compile failure (which is itself still created and compiled); no stage
object of an empty slot's kind is ever created; and when every attempted
compile succeeds, the created stages are exactly all non-empty slots in
the fixed order. -/
theorem shader_C8 (d : Driver) (prog : Nat) (src : ShaderProgram) :
    createdTypes (constructShader d prog src).1 =
      ((((List.finRange 5).filter fun i => !(src.sources i == "")).takeWhile
          (fun i => d.compileStatus i) ++
        (((List.finRange 5).filter fun i => !(src.sources i == "")).dropWhile
          (fun i => d.compileStatus i)).take 1).map shaderTypes) ∧
    (∀ i : Fin 5, src.sources i = "" →
      shaderTypes i ∉ createdTypes (constructShader d prog src).1) ∧
    ((∀ i, src.sources i ≠ "" → d.compileStatus i = true) →
      createdTypes (constructShader d prog src).1 =
        ((List.finRange 5).filter fun i => !(src.sources i == "")).map shaderTypes) := by
  have htrace : createdTypes (constructShader d prog src).1 =
      createdTypes (compileAll d.compileStatus d.shaderInfoLog src
        (List.finRange 5) 1).1 := by
    cases herr : (compileAll d.compileStatus d.shaderInfoLog src
        (List.finRange 5) 1).2.2 with
    | some e => rw [constructShader_err_some d prog src e herr]
    | none =>
      rw [constructShader_err_none d prog src herr]
      by_cases hl : d.linkStatus = false ∧ 1 ≤ d.programInfoLogLen
      · rw [if_pos hl]
        simp only [createdTypes_append, createdTypes_attach_map, createdTypes_link]
        simp
      · rw [if_neg hl]
        simp only [createdTypes_append, createdTypes_attach_map, createdTypes_link,
          createdTypes_cleanup]
        simp
  have hmain := createdTypes_compileAll_all d.compileStatus d.shaderInfoLog src
    (List.finRange 5) 1
  rw [htrace, hmain]
  refine ⟨rfl, ?_, ?_⟩
  · intro i hei hmem
    obtain ⟨j, hj, hji⟩ := List.mem_map.mp hmem
    have hinj : ∀ a b : Fin 5, shaderTypes a = shaderTypes b → a = b := by decide
    have hj₂ : j ∈ (List.finRange 5).filter fun i => !(src.sources i == "") := by
      rcases List.mem_append.mp hj with hj1 | hj1
      · exact (List.takeWhile_prefix _).subset hj1
      · exact (List.dropWhile_suffix _).subset (List.take_subset _ _ hj1)
    have hjne : src.sources j ≠ "" := by
      have hf := (List.mem_filter.mp hj₂).2
      simpa using hf
    exact hjne (hinj j i hji ▸ hei)
  · intro h
    have hall : ∀ x ∈ (List.finRange 5).filter fun i => !(src.sources i == ""),
        d.compileStatus x = true := by
      intro x hx
      exact h x (by simpa using (List.mem_filter.mp hx).2)
    rw [List.takeWhile_eq_self_iff.mpr hall, List.dropWhile_eq_nil_iff.mpr hall]
    simp

/-- C8 witness: vertex-only source with succeeding compiles creates
exactly one vertex stage. -/
theorem shader_C8_witness :
    (∀ i, vertexOnlySrc.sources i ≠ "" → okDriver.compileStatus i = true) ∧
    createdTypes (constructShader okDriver 7 vertexOnlySrc).1 =
      ((((List.finRange 5).filter fun i => !(vertexOnlySrc.sources i == "")).takeWhile
          (fun i => okDriver.compileStatus i) ++
        (((List.finRange 5).filter fun i => !(vertexOnlySrc.sources i == "")).dropWhile
          (fun i => okDriver.compileStatus i)).take 1).map shaderTypes) ∧
    (∀ i : Fin 5, vertexOnlySrc.sources i = "" →
      shaderTypes i ∉ createdTypes (constructShader okDriver 7 vertexOnlySrc).1) ∧
    createdTypes (constructShader okDriver 7 vertexOnlySrc).1 =
      ((List.finRange 5).filter fun i => !(vertexOnlySrc.sources i == "")).map
        shaderTypes := by
  have hh : ∀ i, vertexOnlySrc.sources i ≠ "" → okDriver.compileStatus i = true :=
    fun _ _ => rfl
  have h8 := shader_C8 okDriver 7 vertexOnlySrc
  exact ⟨hh, h8.1, h8.2.1, h8.2.2 hh⟩

end Inugami
